import Mathlib

/-!
Verification of the FPV 24/7 backend core (src/main.py, src/schemas.py):
the catalog query path (`list_products`) and the order pricing and placement
path (`create_order`), together with the pydantic schema layer they use.

Modelling conventions:
* Python floats used for currency and ratings are modelled as exact
  rationals (ℚ); the spec (§4.4) leaves floating-point tie-breaking of
  `round` unpinned, and `round2` below documents the chosen rule.
* MongoDB documents of the `droneproduct` collection are modelled by the
  fields the code under verification actually reads: `_id`, `price`,
  `category` and `featured`.  A possibly-absent `_id` whose `str()` call may
  raise is `Option (Option String)`; a possibly-absent `price` is
  `Option ℚ`.
* The Document Store Adapter (`database.py`) is not part of the sources;
  its `get_documents` and `create_document` operations are modelled from
  the spec, §4.1, as marked on the individual definitions.
* Stateful endpoints are explicit state transformers on `Store`; the
  read-only endpoint `list_products` is also given state-passing form so
  that its read-only behaviour is a provable statement.
* The pydantic constructions are fallible: `Order` re-validates its items
  and total, and the `DroneProductOut(id=..., **d_copy)` reshaping
  re-validates the document — within the modelled fields, a document
  lacking a valid `price` fails the whole `GET /products` response.
-/

set_option autoImplicit false

namespace FPV

/-- Rounding of a currency amount to 2 decimal places, modelling Python's
`round(total, 2)` in `create_order` (src/main.py:188).  Ties are resolved by
Mathlib's `round` (half away from the floor); spec §4.4 step 3 explicitly
leaves the tie-breaking rule to the implementation. -/
def round2 (x : ℚ) : ℚ := ((round (x * 100) : ℤ) : ℚ) / 100

/-- A hexadecimal digit, as accepted by `bson.ObjectId`. -/
def isHexChar (c : Char) : Bool :=
  c.isDigit || ('a' ≤ c && c ≤ 'f') || ('A' ≤ c && c ≤ 'F')

/-- Validity of a string as a `bson.ObjectId`: exactly 24 hexadecimal
characters.  `ObjectId(s)` raises for any other string, which
`create_order` (src/main.py:180-183) catches, treating the id as
unresolvable. -/
def isValidObjectId (s : String) : Bool :=
  s.length == 24 && s.toList.all isHexChar

/-- ASCII whitespace, as stripped by Python's `int(str)`. -/
def isSpaceChar (c : Char) : Bool :=
  c == ' ' || c == '\t' || c == '\n' || c == '\r'

/-- Accumulate a decimal digit string into a natural number; fails on the
first non-digit character. -/
def decDigitsToNat (acc : Nat) : List Char → Option Nat
  | [] => some acc
  | c :: cs => if c.isDigit then decDigitsToNat (acc * 10 + (c.toNat - 48)) cs else none

/-- Python's lax string-to-int coercion (`int(str)`), as pydantic applies it
to the values of a `Dict[str, int]` field: optional surrounding whitespace
and sign followed by decimal digits; anything else fails validation. -/
def pyStrToInt (s : String) : Option Int :=
  let cs := ((s.toList.dropWhile isSpaceChar).reverse.dropWhile isSpaceChar).reverse
  match cs with
  | [] => none
  | c :: rest =>
    if c == '-' then
      match rest with
      | [] => none
      | _ => (decDigitsToNat 0 rest).map (fun n => -(n : Int))
    else if c == '+' then
      match rest with
      | [] => none
      | _ => (decDigitsToNat 0 rest).map (fun n => (n : Int))
    else (decDigitsToNat 0 cs).map (fun n => (n : Int))

/-! ## Schema layer (src/schemas.py) -/

/-- The `DroneProduct` pydantic model (src/schemas.py:20-35).  `HttpUrl`
images are abstracted as strings; URL well-formedness is outside the claims
under verification. -/
structure DroneProduct where
  title : String
  description : Option String
  price : ℚ
  category : String
  images : List String
  in_stock : Bool
  stock_qty : Int
  rating : ℚ
  featured : Bool
  tags : List String
  specs : List (String × String)
deriving DecidableEq

/-- The field-constraint errors pydantic reports when validating a
`DroneProduct`: `price` has `ge=0`, `stock_qty` has `ge=0`, `rating` has
`ge=0, le=5` (src/schemas.py:27,31,32). -/
def droneProductErrors (price : ℚ) (stock_qty : Int) (rating : ℚ) : List String :=
  (if price < 0 then ["price"] else []) ++
  (if stock_qty < 0 then ["stock_qty"] else []) ++
  (if rating < 0 ∨ 5 < rating then ["rating"] else [])

/-- Construction of a `DroneProduct` (src/schemas.py:20-35): optional fields
left unsupplied (`none`) take the declared defaults `in_stock=True`,
`stock_qty=10`, `rating=4.8`, `featured=False`, `tags=[]`, `specs={}`;
validation fails with the list of offending field names when a constraint
is violated. -/
def mkDroneProduct (title : String) (description : Option String) (price : ℚ)
    (category : String) (images : List String) (in_stock : Option Bool)
    (stock_qty : Option Int) (rating : Option ℚ) (featured : Option Bool)
    (tags : Option (List String)) (specs : Option (List (String × String))) :
    Except (List String) DroneProduct :=
  let in_stockV := in_stock.getD true
  let stock_qtyV := stock_qty.getD 10
  let ratingV := rating.getD (4.8 : ℚ)
  let featuredV := featured.getD false
  let tagsV := tags.getD []
  let specsV := specs.getD []
  match droneProductErrors price stock_qtyV ratingV with
  | [] => Except.ok
      ⟨title, description, price, category, images, in_stockV, stock_qtyV,
       ratingV, featuredV, tagsV, specsV⟩
  | errs => Except.error errs

/-- One entry of `Order.items` after pydantic validation: the declared type
is `List[Dict[str, int]]` (src/schemas.py:40), so every dict value —
including the `product_id` string passed in by `create_order`
(src/main.py:188) — is coerced to `int`. -/
structure OrderItem where
  product_id : Int
  qty : Int
deriving DecidableEq

/-- The `Order` pydantic model (src/schemas.py:37-42). -/
structure Order where
  email : String
  items : List OrderItem
  total : ℚ
  status : String
deriving DecidableEq

/-- Pydantic validation of the `items` value of an `Order`: each entry is a
dict whose values must coerce to `int` (`items: List[Dict[str, int]]`,
src/schemas.py:40).  The `product_id` value is a string and goes through
`pyStrToInt`; the `qty` value is already an integer. -/
def coerceItems : List (String × Int) → Option (List OrderItem)
  | [] => some []
  | (pid, q) :: rest =>
    match pyStrToInt pid with
    | none => none
    | some n =>
      match coerceItems rest with
      | none => none
      | some rest2 => some (⟨n, q⟩ :: rest2)

/-- Construction of an `Order` (src/schemas.py:37-42) as `create_order`
performs it: `status` is not supplied and defaults to "pending"; the
`items` values are coerced per `coerceItems`; `total` has `ge=0`.  The
error carries the name of the offending field. -/
def mkOrder (email : String) (items : List (String × Int)) (total : ℚ) :
    Except String Order :=
  match coerceItems items with
  | none => Except.error "items"
  | some its =>
    if total < 0 then Except.error "total"
    else Except.ok ⟨email, its, total, "pending"⟩

/-! ## Document store -/

/-- A raw document of the `droneproduct` collection, restricted to the
fields the verified code reads.  `idField = none` models a document with no
`_id` key; `idField = some none` one whose `_id` exists but whose `str()`
conversion raises; `idField = some (some s)` one whose `_id` prints as `s`.
`price = none` models a document with no `price` key. -/
structure ProductDoc where
  idField : Option (Option String)
  price : Option ℚ
  category : String
  featured : Bool
deriving DecidableEq

/-- The persisted state: the `droneproduct` and `order` collections
(spec §6; the `category` collection is touched only by the out-of-scope
seeding endpoint). -/
structure Store where
  droneproducts : List ProductDoc
  orders : List Order
deriving DecidableEq

/-- The lookup `db["droneproduct"].find_one({"_id": ObjectId(pid)})` wrapped
in `try/except` (src/main.py:180-183): a malformed id makes `ObjectId`
raise, which the handler turns into `doc = None`; otherwise the first
document with that id is returned, with a missing document also `None`. -/
def find_one_product (st : Store) (pid : String) : Option ProductDoc :=
  if isValidObjectId pid then
    st.droneproducts.find? (fun d => d.idField == some (some pid))
  else
    none

/-- An equality filter over the `droneproduct` collection, as built by
`list_products` (src/main.py:148-152). -/
structure Query where
  category : Option String
  featured : Option Bool
deriving DecidableEq

/-- Whether a document matches an equality filter (all present fields must
match; an empty filter matches everything). -/
def matchesQuery (q : Query) (d : ProductDoc) : Bool :=
  (match q.category with
   | some c => d.category == c
   | none => true) &&
  (match q.featured with
   | some f => d.featured == f
   | none => true)

/-- Modelled from the spec: `get_documents` lives in `database.py`, which is
not under the sources; per §4.1 the Adapter's `query` returns up to `limit`
documents matching the equality filter, in store order, and an empty list
when nothing matches. -/
def get_documents (docs : List ProductDoc) (q : Query) (limit : Nat) :
    List ProductDoc :=
  (docs.filter (matchesQuery q)).take limit

/-- Modelled from the spec: `create_document` lives in `database.py`, which
is not under the sources; per §4.1 the Adapter's `insert` persists one new
record and returns a stable string identifier, modelled here as the decimal
index of the new document in the `order` collection. -/
def create_document_order (st : Store) (o : Order) : String × Store :=
  (toString st.orders.length, { st with orders := st.orders ++ [o] })

/-! ## Catalog query service (src/main.py:146-164) -/

/-- The output-record reshaping of the store id (src/main.py:157-162):
`_id = d.pop("_id", None)`, then `str(_id) if _id else ""` inside a
`try/except` that falls back to `""`. -/
def idString (idf : Option (Option String)) : String :=
  match idf with
  | none => ""
  | some strAttempt =>
    match strAttempt with
    | some s => s
    | none => ""

/-- The output record of `GET /products`: `DroneProductOut` extends the
product document with a string `id` (src/main.py:143-144).  It inherits the
validated fields of `DroneProduct`; in particular `price` is required
(`Field(..., ge=0)`, src/schemas.py:27), so a record always carries an
actual price. -/
structure DroneProductOut where
  id : String
  price : ℚ
  category : String
  featured : Bool
deriving DecidableEq

/-- The pydantic construction `DroneProductOut(id=id_str, **d_copy)`
(src/main.py:163): the document's fields are re-validated.  Within the
modelled fields, `price` is required with `ge=0` (inherited from
`DroneProduct`, src/schemas.py:27), so a document with no `price` key, or a
negative one, raises a `ValidationError` naming that field; the id string
was already computed by the `try/except` fallback and cannot fail here. -/
def mkDroneProductOut (idStr : String) (d : ProductDoc) :
    Except String DroneProductOut :=
  match d.price with
  | none => Except.error "price"
  | some p =>
    if p < 0 then Except.error "price"
    else Except.ok ⟨idStr, p, d.category, d.featured⟩

/-- The output loop of `list_products` (src/main.py:155-163): documents are
reshaped in order and appended; the first document failing `DroneProductOut`
validation raises, aborting the whole response (surfaced as HTTP 500). -/
def reshapeDocs : List ProductDoc → Except String (List DroneProductOut)
  | [] => Except.ok []
  | d :: ds =>
    match mkDroneProductOut (idString d.idField) d with
    | Except.error f => Except.error f
    | Except.ok o =>
      match reshapeDocs ds with
      | Except.error f => Except.error f
      | Except.ok os => Except.ok (o :: os)

/-- The filter built by `list_products` (src/main.py:148-152): `if category:`
is Python truthiness, so an empty category string adds no filter;
`if featured is not None:` adds the featured filter for both `True` and
`False`. -/
def buildQuery (category : Option String) (featured : Option Bool) : Query :=
  { category :=
      match category with
      | some c => if c = "" then none else some c
      | none => none,
    featured := featured }

/-- `GET /products` (src/main.py:146-164), in state-passing form: queries the
`droneproduct` collection with the built filter and reshapes each returned
document through the re-validating `DroneProductOut` construction, which can
fail; the store is returned unchanged on every path. -/
def list_products (st : Store) (category : Option String)
    (featured : Option Bool) (limit : Nat) :
    Except String (List DroneProductOut) × Store :=
  let docs := get_documents st.droneproducts (buildQuery category featured) limit
  (reshapeDocs docs, st)

/-! ## Order pricing and placement service (src/main.py:167-190) -/

/-- A cart item of the request body (src/main.py:167-169). -/
structure CartItem where
  product_id : String
  qty : Int
deriving DecidableEq

/-- The request body of `POST /orders` (src/main.py:171-173). -/
structure CreateOrderRequest where
  email : String
  items : List CartItem
deriving DecidableEq

/-- One line's contribution to the total:
`float(doc.get("price", 0)) * max(1, item.qty)` (src/main.py:186). -/
def lineAmount (d : ProductDoc) (qty : Int) : ℚ :=
  d.price.getD 0 * ((max 1 qty : Int) : ℚ)

/-- The accumulation loop of `create_order` (src/main.py:178-186): items are
visited in order, the first unresolvable `product_id` aborts with that id,
and otherwise each line adds `price * max(1, qty)` to the accumulator. -/
def computeTotalAux (st : Store) : ℚ → List CartItem → Except String ℚ
  | acc, [] => Except.ok acc
  | acc, i :: rest =>
    match find_one_product st i.product_id with
    | none => Except.error i.product_id
    | some d => computeTotalAux st (acc + lineAmount d i.qty) rest

/-- The total computed by `create_order` before rounding, starting from
`total = 0.0` (src/main.py:178). -/
def computeTotal (st : Store) (items : List CartItem) : Except String ℚ :=
  computeTotalAux st 0 items

/-- The authoritative price a cart item resolves to: the `price` field of
the document found for its `product_id`, when both exist. -/
def resolvedPrice (st : Store) (pid : String) : Option ℚ :=
  (find_one_product st pid).bind ProductDoc.price

/-- The outcome of `POST /orders`: success with the assigned order id
(HTTP 200), `HTTPException(404, ...)` naming the unresolvable product id, or
an uncaught pydantic `ValidationError` from constructing the `Order`
(surfaced as HTTP 500), carrying the offending field. -/
inductive OrderResult where
  | ok (order_id : String)
  | notFound (product_id : String)
  | validationError (field : String)
deriving DecidableEq

/-- `POST /orders` (src/main.py:175-190), in state-passing form: compute the
total from stored prices, construct the `Order` (status defaulting to
"pending", total rounded to 2 decimals, items re-validated by pydantic),
persist it and return the assigned id.  Any failure leaves the store
unchanged. -/
def create_order (st : Store) (req : CreateOrderRequest) : OrderResult × Store :=
  match computeTotal st req.items with
  | Except.error pid => (OrderResult.notFound pid, st)
  | Except.ok total =>
    match mkOrder req.email (req.items.map (fun i => (i.product_id, i.qty)))
        (round2 total) with
    | Except.error f => (OrderResult.validationError f, st)
    | Except.ok o =>
      let res := create_document_order st o
      (OrderResult.ok res.1, res.2)

end FPV

namespace FPV

/-! ## Concrete fixtures used by witnesses and counterexamples -/

/-- A store holding the spec's §8 concrete scenario, with two priced
products under valid ObjectId identifiers. -/
def stW : Store :=
  ⟨[⟨some (some "aaaaaaaaaaaaaaaaaaaaaaaa"), some 499, "custom-drones", true⟩,
    ⟨some (some "cccccccccccccccccccccccc"), some 24, "motors", false⟩], []⟩

/-- A cart ordering one unit of the first product of `stW` and two of the
second. -/
def itemsW : List CartItem :=
  [⟨"aaaaaaaaaaaaaaaaaaaaaaaa", 1⟩, ⟨"cccccccccccccccccccccccc", 2⟩]

/-- A store with a single priced product under a valid ObjectId. -/
def stBug : Store :=
  ⟨[⟨some (some "507f1f77bcf86cd799439011"), some 499, "custom-drones", true⟩], []⟩

/-- A fully valid order request against `stBug`. -/
def reqBug : CreateOrderRequest :=
  ⟨"a@b.c", [⟨"507f1f77bcf86cd799439011", 1⟩]⟩

/-- A store with a single product of category "motors". -/
def stCat : Store :=
  ⟨[⟨some (some "bbbbbbbbbbbbbbbbbbbbbbbb"), some 10, "motors", false⟩], []⟩

/-- A store whose single product document has no `price` field. -/
def stNoPrice : Store :=
  ⟨[⟨some (some "dddddddddddddddddddddddd"), none, "frames", false⟩], []⟩

/-! ## Helper lemmas -/

lemma computeTotalAux_ok (st : Store) (items : List CartItem)
    (h : ∀ i ∈ items, (find_one_product st i.product_id).isSome) (acc : ℚ) :
    computeTotalAux st acc items =
      Except.ok (acc + (items.map (fun i =>
        (resolvedPrice st i.product_id).getD 0 * ((max 1 i.qty : Int) : ℚ))).sum) := by
  induction items generalizing acc with
  | nil => simp [computeTotalAux]
  | cons i rest ih =>
    obtain ⟨d, hd⟩ := Option.isSome_iff_exists.mp (h i (List.mem_cons_self i rest))
    have hrest : ∀ j ∈ rest, (find_one_product st j.product_id).isSome :=
      fun j hj => h j (List.mem_cons_of_mem i hj)
    simp only [computeTotalAux, hd, ih hrest, List.map_cons, List.sum_cons,
      resolvedPrice, lineAmount, Option.some_bind]
    rw [add_assoc]

lemma computeTotalAux_error (st : Store) (items : List CartItem)
    (h : ∃ i ∈ items, find_one_product st i.product_id = none) :
    ∃ pid, find_one_product st pid = none ∧ pid ∈ items.map CartItem.product_id ∧
      ∀ acc, computeTotalAux st acc items = Except.error pid := by
  induction items with
  | nil => simp at h
  | cons i rest ih =>
    cases hf : find_one_product st i.product_id with
    | none =>
      exact ⟨i.product_id, hf, by simp, fun acc => by simp [computeTotalAux, hf]⟩
    | some d =>
      have h2 : ∃ j ∈ rest, find_one_product st j.product_id = none := by
        rcases h with ⟨j, hj, hjn⟩
        rcases List.mem_cons.mp hj with rfl | hjr
        · rw [hf] at hjn; cases hjn
        · exact ⟨j, hjr, hjn⟩
      rcases ih h2 with ⟨pid, h1, hmem, hrun⟩
      refine ⟨pid, h1, ?_, fun acc => by simp [computeTotalAux, hf, hrun]⟩
      simp only [List.map_cons, List.mem_cons]
      exact Or.inr hmem

end FPV

namespace FPV

/-! ## Claims about the order pricing and placement path -/

/-- Claim C1: for every cart whose items all resolve to stored, priced
products, the total computed by `create_order` — `computeTotal` followed by
`round2`, exactly src/main.py:178-188 — equals the sum over the cart items
of the stored product's price times `max 1 qty`, rounded to 2 decimal
places; a quantity of zero or less contributes one unit's price. -/
theorem create_order_total_invariant (st : Store) (items : List CartItem)
    (h : ∀ i ∈ items, (resolvedPrice st i.product_id).isSome) :
    (computeTotal st items).map round2 =
      Except.ok (round2 ((items.map (fun i =>
        (resolvedPrice st i.product_id).getD 0 * ((max 1 i.qty : Int) : ℚ))).sum)) := by
  have h2 : ∀ i ∈ items, (find_one_product st i.product_id).isSome := by
    intro i hi
    have hp := h i hi
    unfold resolvedPrice at hp
    cases hf : find_one_product st i.product_id
    · rw [hf] at hp; simp at hp
    · simp
  rw [computeTotal, computeTotalAux_ok st items h2 0, zero_add]
  rfl

/-- Witness for C1 at the spec's §8-style concrete scenario: two products
priced 499 and 24 under valid ObjectIds, quantities 1 and 2. -/
theorem create_order_total_invariant_witness :
    (computeTotal stW itemsW).map round2 =
      Except.ok (round2 ((itemsW.map (fun i =>
        (resolvedPrice stW i.product_id).getD 0 * ((max 1 i.qty : Int) : ℚ))).sum)) :=
  create_order_total_invariant stW itemsW (by decide)

/-- Claim C3: a cart containing an unresolvable product_id — missing or
malformed — makes `create_order` fail with a not-found error naming an
unresolvable product_id of the cart, and the store (in particular its order
collection) is returned unchanged. -/
theorem create_order_unresolved_aborts (st : Store) (e : String) (items : List CartItem)
    (h : ∃ i ∈ items, find_one_product st i.product_id = none) :
    ∃ pid, find_one_product st pid = none ∧ pid ∈ items.map CartItem.product_id ∧
      create_order st ⟨e, items⟩ = (OrderResult.notFound pid, st) := by
  rcases computeTotalAux_error st items h with ⟨pid, h1, h2, h3⟩
  exact ⟨pid, h1, h2, by simp [create_order, computeTotal, h3 0]⟩

/-- Witness for C3: a malformed identifier (not 24 hex characters) in an
otherwise well-stocked store aborts the order and leaves the store
unchanged. -/
theorem create_order_unresolved_aborts_witness :
    ∃ pid, find_one_product stCat pid = none ∧
      pid ∈ ([⟨"not-a-valid-objectid", 2⟩] : List CartItem).map CartItem.product_id ∧
      create_order stCat ⟨"x@y.z", [⟨"not-a-valid-objectid", 2⟩]⟩ =
        (OrderResult.notFound pid, stCat) :=
  create_order_unresolved_aborts stCat "x@y.z" [⟨"not-a-valid-objectid", 2⟩] (by decide)

/-- Claim C9: a cart item that resolves to a stored document with no
`price` field contributes `float(doc.get("price", 0)) * max(1, qty) = 0`
to the total, rather than failing (src/main.py:186). -/
theorem missing_price_zero_line (st : Store) (pid : String) (q : Int) (d : ProductDoc)
    (rest : List CartItem) (h1 : find_one_product st pid = some d)
    (h2 : d.price = none) :
    computeTotal st (⟨pid, q⟩ :: rest) = computeTotal st rest := by
  simp [computeTotal, computeTotalAux, h1, lineAmount, h2]

/-- Witness for C9: a store whose only document has no `price` field. -/
theorem missing_price_zero_line_witness :
    computeTotal stNoPrice [⟨"dddddddddddddddddddddddd", 3⟩] = computeTotal stNoPrice [] :=
  missing_price_zero_line stNoPrice "dddddddddddddddddddddddd" 3
    ⟨some (some "dddddddddddddddddddddddd"), none, "frames", false⟩ [] (by decide) rfl

/-- Claim C10: an empty cart makes `create_order` succeed without any
product lookup, persisting an order with total 0 and status "pending" and
returning the assigned id. -/
theorem create_order_empty_cart (st : Store) (e : String) :
    create_order st ⟨e, []⟩ =
      (OrderResult.ok (toString st.orders.length),
       { st with orders := st.orders ++ [⟨e, [], 0, "pending"⟩] }) := by
  have hr : round2 0 = 0 := by simp [round2]
  simp [create_order, computeTotal, computeTotalAux, mkOrder, coerceItems, hr,
    create_document_order]

/-- Claim C2 (refuted by the code): even when every cart item resolves to a
stored product, `create_order` does not persist an order or return success:
`Order.items` is declared `List[Dict[str, int]]` (src/schemas.py:40), so
pydantic tries to coerce the `product_id` string "507f1f77bcf86cd799439011"
to `int`, fails, and the uncaught `ValidationError` aborts the request with
the store unchanged. -/
theorem create_order_items_type_bug :
    (∀ i ∈ reqBug.items, (find_one_product stBug i.product_id).isSome) ∧
    create_order stBug reqBug = (OrderResult.validationError "items", stBug) := by
  constructor
  · decide
  · have hfind : find_one_product stBug "507f1f77bcf86cd799439011" =
        some ⟨some (some "507f1f77bcf86cd799439011"), some 499, "custom-drones", true⟩ := by
      decide
    have hcoerce : pyStrToInt "507f1f77bcf86cd799439011" = none := by decide
    simp [create_order, reqBug, computeTotal, computeTotalAux, hfind, mkOrder,
      coerceItems, hcoerce]

end FPV

namespace FPV

/-! ## Claims about the catalog query path -/

lemma mkDroneProductOut_ok_fields (s : String) (d : ProductDoc) (o : DroneProductOut)
    (h : mkDroneProductOut s d = Except.ok o) : o.id = s ∧ o.category = d.category := by
  cases hp : d.price with
  | none => simp [mkDroneProductOut, hp] at h
  | some p =>
    simp only [mkDroneProductOut, hp] at h
    split_ifs at h
    all_goals cases h
    all_goals exact ⟨rfl, rfl⟩

lemma reshapeDocs_ok_mem (docs : List ProductDoc) (os : List DroneProductOut)
    (hr : reshapeDocs docs = Except.ok os) :
    ∀ o ∈ os, ∃ d ∈ docs, mkDroneProductOut (idString d.idField) d = Except.ok o := by
  induction docs generalizing os with
  | nil =>
    simp only [reshapeDocs] at hr
    cases hr
    intro o ho
    exact absurd ho (List.not_mem_nil o)
  | cons d ds ih =>
    cases hmk : mkDroneProductOut (idString d.idField) d with
    | error f =>
      simp only [reshapeDocs, hmk] at hr
      cases hr
    | ok o1 =>
      cases hrs : reshapeDocs ds with
      | error f =>
        simp only [reshapeDocs, hmk, hrs] at hr
        cases hr
      | ok os1 =>
        simp only [reshapeDocs, hmk, hrs] at hr
        cases hr
        intro o ho
        rcases List.mem_cons.mp ho with rfl | ho2
        · exact ⟨d, List.mem_cons_self d ds, hmk⟩
        · obtain ⟨d2, hd2, hmk2⟩ := ih os1 hrs o ho2
          exact ⟨d2, List.mem_cons_of_mem d hd2, hmk2⟩

lemma reshapeDocs_ok_map_id (docs : List ProductDoc) (os : List DroneProductOut)
    (hr : reshapeDocs docs = Except.ok os) :
    os.map DroneProductOut.id = docs.map (fun d => idString d.idField) := by
  induction docs generalizing os with
  | nil =>
    simp only [reshapeDocs] at hr
    cases hr
    rfl
  | cons d ds ih =>
    cases hmk : mkDroneProductOut (idString d.idField) d with
    | error f =>
      simp only [reshapeDocs, hmk] at hr
      cases hr
    | ok o1 =>
      cases hrs : reshapeDocs ds with
      | error f =>
        simp only [reshapeDocs, hmk, hrs] at hr
        cases hr
      | ok os1 =>
        simp only [reshapeDocs, hmk, hrs] at hr
        cases hr
        simp only [List.map_cons, ih os1 hrs,
          (mkDroneProductOut_ok_fields _ _ _ hmk).1]

/-- Claim C4, counterexample: the claim as stated quantifies over every
supplied category string, but `list_products` builds its filter with Python
truthiness (`if category:`, src/main.py:149), so the supplied empty category
string adds no filter and a stored product of category "motors" is
returned with category not equal to the supplied string. -/
theorem list_products_empty_category_counterexample :
    ∃ os, (list_products stCat (some "") none 50).1 = Except.ok os ∧
      ∃ o ∈ os, o.category ≠ "" := by
  refine ⟨[⟨"bbbbbbbbbbbbbbbbbbbbbbbb", 10, "motors", false⟩], ?_, ?_⟩
  · have hp : ¬ ((10 : ℚ) < 0) := by norm_num
    simp [list_products, get_documents, buildQuery, matchesQuery, stCat,
      reshapeDocs, mkDroneProductOut, idString, hp]
  · decide

/-- Claim C4 as amended: for every supplied nonempty category string `c`,
every product returned by `list_products` has category `c`, and the result
is exactly the stored products of category `c` that the featured filter (the
two filters are ANDed) does not exclude, up to the limit, passed through the
re-validating `DroneProductOut` construction (which fails the request when
such a document lacks a valid price). -/
theorem list_products_category_filter (st : Store) (c : String) (feat : Option Bool)
    (lim : Nat) (h : c ≠ "") :
    (∀ os, (list_products st (some c) feat lim).1 = Except.ok os →
      ∀ o ∈ os, o.category = c) ∧
    (list_products st (some c) feat lim).1 =
      reshapeDocs ((st.droneproducts.filter (fun d => d.category == c &&
        (match feat with | some f => d.featured == f | none => true))).take lim) := by
  have hm : matchesQuery (buildQuery (some c) feat) = (fun d : ProductDoc =>
      d.category == c &&
      (match feat with | some f => d.featured == f | none => true)) := by
    funext d
    simp [buildQuery, matchesQuery, h]
  have heq : (list_products st (some c) feat lim).1 =
      reshapeDocs ((st.droneproducts.filter (fun d => d.category == c &&
        (match feat with | some f => d.featured == f | none => true))).take lim) := by
    simp only [list_products, get_documents, hm]
  refine ⟨?_, heq⟩
  intro os hos o ho
  rw [heq] at hos
  obtain ⟨d, hd, hmk⟩ := reshapeDocs_ok_mem _ _ hos o ho
  have hd2 := List.mem_filter.mp (List.mem_of_mem_take hd)
  have hcat : d.category = c := by
    have h2 := hd2.2
    simp only [Bool.and_eq_true, beq_iff_eq] at h2
    exact h2.1
  rw [(mkDroneProductOut_ok_fields _ _ _ hmk).2, hcat]

/-- Witness for C4 as amended, at the concrete category "motors". -/
theorem list_products_category_filter_witness :
    (∀ os, (list_products stCat (some "motors") none 50).1 = Except.ok os →
      ∀ o ∈ os, o.category = "motors") ∧
    (list_products stCat (some "motors") none 50).1 =
      reshapeDocs ((stCat.droneproducts.filter (fun d => d.category == "motors" &&
        (match (none : Option Bool) with | some f => d.featured == f | none => true))).take
        50) :=
  list_products_category_filter stCat "motors" none 50 (by decide)

/-- Claim C7: whenever `list_products` answers (the re-validation of
src/main.py:163 raising for no document), each document returned by the
store yields an output record whose `id` is the string form of the
store-assigned identifier, and the empty string when that identifier is
absent or its string conversion raises (the `try/except` of
src/main.py:159-162); moreover the identifier never causes an error: the
success of the reshaping of a document is unchanged under replacing its
identifier by any other — absent or unparseable included. -/
theorem list_products_id_reshape (st : Store) (c : Option String) (f : Option Bool)
    (lim : Nat) :
    (∀ os, (list_products st c f lim).1 = Except.ok os →
      os.map DroneProductOut.id =
        (get_documents st.droneproducts (buildQuery c f) lim).map
          (fun d => (Option.join d.idField).getD "")) ∧
    (∀ d : ProductDoc, ∀ idf : Option (Option String),
      ((∃ o, mkDroneProductOut (idString idf) { d with idField := idf } =
          Except.ok o) ↔
       (∃ o, mkDroneProductOut (idString d.idField) d = Except.ok o))) := by
  constructor
  · intro os hos
    have h1 : reshapeDocs (get_documents st.droneproducts (buildQuery c f) lim) =
        Except.ok os := by
      simpa [list_products] using hos
    rw [reshapeDocs_ok_map_id _ _ h1]
    have hfun : ∀ d : ProductDoc, idString d.idField = (Option.join d.idField).getD "" := by
      intro d
      rcases hf : d.idField with _ | so
      · simp [idString]
      · rcases so with _ | s <;> simp [idString]
    generalize get_documents st.droneproducts (buildQuery c f) lim = docs
    induction docs with
    | nil => rfl
    | cons d ds ih => simp only [List.map_cons, ih, hfun d]
  · intro d idf
    cases hp : d.price with
    | none => simp [mkDroneProductOut, hp]
    | some p =>
      by_cases hn : p < 0
      · simp [mkDroneProductOut, hp, hn]
      · simp [mkDroneProductOut, hp, hn]

/-- Claim C8: `list_products` performs no writes — the store it returns is
the store it was given — and a second call with identical arguments on the
state left by the first returns the identical result set. -/
theorem list_products_readonly_idempotent (st : Store) (c : Option String)
    (f : Option Bool) (lim : Nat) :
    (list_products st c f lim).2 = st ∧
    (list_products (list_products st c f lim).2 c f lim).1 =
      (list_products st c f lim).1 :=
  ⟨rfl, rfl⟩

end FPV

namespace FPV

/-! ## Claims about the schema layer -/

lemma droneProductErrors_eq_nil_iff (p : ℚ) (sq : Int) (r : ℚ) :
    droneProductErrors p sq r = [] ↔ (0 ≤ p ∧ 0 ≤ sq ∧ 0 ≤ r ∧ r ≤ 5) := by
  simp only [droneProductErrors, List.append_eq_nil, ite_eq_right_iff,
    List.cons_ne_nil, imp_false, not_lt, not_or, and_assoc]

lemma droneProductErrors_mem (p : ℚ) (sq : Int) (r : ℚ) :
    ("price" ∈ droneProductErrors p sq r ↔ p < 0) ∧
    ("stock_qty" ∈ droneProductErrors p sq r ↔ sq < 0) ∧
    ("rating" ∈ droneProductErrors p sq r ↔ (r < 0 ∨ 5 < r)) := by
  by_cases hp : p < 0 <;> by_cases hs : sq < 0 <;> by_cases hr : r < 0 ∨ 5 < r <;>
    simp +decide [droneProductErrors, hp, hs, hr]

/-- Claim C5: constructing a `DroneProduct` with a negative price, a
negative stock_qty, or a rating outside [0,5] fails with a validation error
naming exactly the offending fields; construction succeeds for all supplied
values satisfying these constraints (src/schemas.py:27,31,32). -/
theorem droneproduct_validation (t : String) (dsc : Option String) (p : ℚ) (c : String)
    (imgs : List String) (inS : Option Bool) (sq : Int) (r : ℚ) (feat : Option Bool)
    (tags : Option (List String)) (specs : Option (List (String × String))) :
    ((∃ prod, mkDroneProduct t dsc p c imgs inS (some sq) (some r) feat tags specs =
        Except.ok prod) ↔
      (0 ≤ p ∧ 0 ≤ sq ∧ 0 ≤ r ∧ r ≤ 5)) ∧
    (∀ errs, mkDroneProduct t dsc p c imgs inS (some sq) (some r) feat tags specs =
        Except.error errs →
      ((p < 0 ↔ "price" ∈ errs) ∧ (sq < 0 ↔ "stock_qty" ∈ errs) ∧
       ((r < 0 ∨ 5 < r) ↔ "rating" ∈ errs))) := by
  have hg : mkDroneProduct t dsc p c imgs inS (some sq) (some r) feat tags specs =
      (match droneProductErrors p sq r with
       | [] => Except.ok ⟨t, dsc, p, c, imgs, inS.getD true, sq, r, feat.getD false,
           tags.getD [], specs.getD []⟩
       | errs => Except.error errs) := by
    simp [mkDroneProduct]
  cases he : droneProductErrors p sq r with
  | nil =>
    rw [he] at hg
    constructor
    · constructor
      · intro _
        exact (droneProductErrors_eq_nil_iff p sq r).mp he
      · intro _
        exact ⟨_, hg⟩
    · intro errs hcon
      rw [hg] at hcon
      cases hcon
  | cons a as =>
    rw [he] at hg
    constructor
    · constructor
      · intro hok
        rcases hok with ⟨prod, hok⟩
        rw [hg] at hok
        cases hok
      · intro hc
        have hnil := (droneProductErrors_eq_nil_iff p sq r).mpr hc
        rw [he] at hnil
        cases hnil
    · intro errs herr
      rw [hg] at herr
      have hinj : a :: as = errs := by
        injection herr
      have hmem := droneProductErrors_mem p sq r
      rw [he, hinj] at hmem
      exact ⟨(hmem.1).symm, (hmem.2.1).symm, (hmem.2.2).symm⟩

/-- Claim C6: with all optional fields omitted, a `DroneProduct` gets
exactly the defaults `in_stock = true`, `stock_qty = 10`, `rating = 4.8`,
`featured = false`, `tags = []`, `specs = {}` (src/schemas.py:29-35), and an
`Order` built without a status gets `status = "pending"`
(src/schemas.py:42). -/
theorem droneproduct_order_defaults (t : String) (dsc : Option String) (p : ℚ)
    (c : String) (imgs : List String) (e : String) (its : List (String × Int))
    (tot : ℚ) (h : 0 ≤ p) :
    mkDroneProduct t dsc p c imgs none none none none none none =
      Except.ok ⟨t, dsc, p, c, imgs, true, 10, (4.8 : ℚ), false, [], []⟩ ∧
    (∀ o, mkOrder e its tot = Except.ok o → o.status = "pending") := by
  constructor
  · have hnil : droneProductErrors p 10 (4.8 : ℚ) = [] := by
      rw [droneProductErrors_eq_nil_iff]
      refine ⟨h, by norm_num, by norm_num, by norm_num⟩
    simp [mkDroneProduct, hnil]
  · intro o ho
    cases hc : coerceItems its with
    | none => simp [mkOrder, hc] at ho
    | some its2 =>
      simp only [mkOrder, hc] at ho
      split_ifs at ho with ht
      all_goals cases ho
      all_goals rfl

/-- Witness for C6 at concrete required fields. -/
theorem droneproduct_order_defaults_witness :
    mkDroneProduct "Raven" none 499 "custom-drones" [] none none none none none none =
      Except.ok ⟨"Raven", none, 499, "custom-drones", [], true, 10, (4.8 : ℚ), false,
        [], []⟩ ∧
    (∀ o, mkOrder "a@b.c" [] 0 = Except.ok o → o.status = "pending") :=
  droneproduct_order_defaults "Raven" none 499 "custom-drones" [] "a@b.c" [] 0
    (by norm_num)

end FPV
